import Mathlib

/-!
Shallow embedding of `vasttrafik.py`, a small client for the Västtrafik
transit API: a stop cache with a one-week expiry, a regex-based stop
finder, a departure fetcher and record formatter, and a CLI driver.
External collaborators (the HTTP layer and Python's `re` module) are
modelled as explicit oracles passed to the embedded functions.
-/

set_option autoImplicit false

namespace Vasttrafik

/-- Python values that flow through this program: `None`, booleans,
integers and strings.  (`type(x) == int` distinguishes `bool` from `int`
even though `bool` subclasses `int`, so booleans are a separate arm.) -/
inductive PyVal where
  | none
  | bool (b : Bool)
  | int (n : Int)
  | str (s : String)
deriving DecidableEq

/-- Python truthiness (`if x:`) for the values above: `None`, `False`,
`0` and `""` are falsy, everything else truthy. -/
def pyTruthy : PyVal → Bool
  | .none => false
  | .bool b => b
  | .int n => n != 0
  | .str s => s != ""

/-- The Python exceptions this program can raise. -/
inductive PyError where
  | typeError
  | valueError
  | regexError
deriving DecidableEq

/-- Digit-string evaluation: `some` of the value when every character is
a decimal digit, `none` otherwise. -/
def digitsVal (l : List Char) : Option Nat :=
  l.foldl
    (fun acc c =>
      match acc with
      | Option.none => Option.none
      | Option.some n =>
          if c.isDigit then Option.some (n * 10 + (c.toNat - '0'.toNat))
          else Option.none)
    (Option.some 0)

/-- Python `int(s)` on a string: an optional sign followed by a nonempty
run of decimal digits; anything else raises `ValueError`.  (Python also
accepts surrounding whitespace and underscores; no code path here feeds
such strings to `int`.) -/
def pyIntOfStr (s : String) : Except PyError Int :=
  match s.toList with
  | '-' :: rest =>
      if rest = [] then .error .valueError
      else
        match digitsVal rest with
        | Option.some n => .ok (-(n : Int))
        | Option.none => .error .valueError
  | '+' :: rest =>
      if rest = [] then .error .valueError
      else
        match digitsVal rest with
        | Option.some n => .ok (n : Int)
        | Option.none => .error .valueError
  | l =>
      if l = [] then .error .valueError
      else
        match digitsVal l with
        | Option.some n => .ok (n : Int)
        | Option.none => .error .valueError

/-- Python `int(x)`: identity on ints, `1`/`0` on booleans, decimal
parsing on strings, `TypeError` on `None`. -/
def pyInt : PyVal → Except PyError Int
  | .int n => .ok n
  | .bool b => .ok (if b then 1 else 0)
  | .str s => pyIntOfStr s
  | .none => .error .typeError

/-- Python `str(x)` for the embedded values. -/
def pyStr : PyVal → String
  | .none => "None"
  | .bool b => if b then "True" else "False"
  | .int n => toString n
  | .str s => s

/-- Python `s.rjust(w)`: pad on the left with spaces up to width `w`
(counted in code points, as Python's `len` does). -/
def pyRjust (s : String) (w : Nat) : String :=
  String.mk (List.replicate (w - s.length) ' ') ++ s

/-- The `departure` value type: `line` and `direction` are stored as
strings, `minsLeft` as an int, `minsNext` as an int or `None`. -/
structure Departure where
  line : String
  direction : String
  minsLeft : Int
  minsNext : Option Int
deriving DecidableEq

/-- The constructor `departure.__init__(line, direction, minsLeft,
minsNext=None)`: `self.minsLeft = int(minsLeft) if minsLeft != 'now'
else 0`; `self.minsNext = int(minsNext) if minsNext else None`.
`int()` can raise, so construction is fallible. -/
def departure_init (line direction minsLeft minsNext : PyVal) :
    Except PyError Departure :=
  match (if minsLeft != PyVal.str "now" then pyInt minsLeft else .ok 0) with
  | .error e => .error e
  | .ok ml =>
    match
      (if pyTruthy minsNext then (pyInt minsNext).map Option.some
       else .ok Option.none) with
    | .error e => .error e
    | .ok mn => .ok ⟨pyStr line, pyStr direction, ml, mn⟩

/-- The formatter `departure.__str__`: `line.rjust(3) + ' → ' + direction
+ ' in ' + str(minsLeft) + 'm'`, and, guarded by the truthiness test
`if self.minsNext:`, the suffix `' (then ' + str(minsNext) + 'm)'`. -/
def departure_str (d : Departure) : String :=
  match d.minsNext with
  | Option.some n =>
      if n != 0 then
        pyRjust d.line 3 ++ " → " ++ d.direction ++ " in " ++
          toString d.minsLeft ++ "m" ++ " (then " ++ toString n ++ "m)"
      else
        pyRjust d.line 3 ++ " → " ++ d.direction ++ " in " ++
          toString d.minsLeft ++ "m"
  | Option.none =>
      pyRjust d.line 3 ++ " → " ++ d.direction ++ " in " ++
        toString d.minsLeft ++ "m"

/-- Substring test on character lists: `sub` occurs contiguously in `l`. -/
def charsContain (l sub : List Char) : Bool :=
  sub.isPrefixOf l ||
    match l with
    | [] => false
    | _ :: t => charsContain t sub

/-- Substring test on strings (Python's `sub in s`). -/
def strContainsSub (s sub : String) : Bool :=
  charsContain s.toList sub.toList

example : departure_str ⟨"4", "Angered", 3, Option.some 13⟩ =
    "  4 → Angered in 3m (then 13m)" := by decide

example : departure_str ⟨"4", "Angered", 3, Option.some 0⟩ =
    "  4 → Angered in 3m" := by decide

example : strContainsSub "  4 → then 0m in 3m" "then 0m" = true := by decide

/-- Abstract model of Python's `re` module, an external collaborator:
`valid p` says whether pattern `p` compiles, and `searchIC p s` whether
the case-insensitive unanchored search (`re.search` with
`re.IGNORECASE`) finds a match of `p` somewhere in `s`. -/
structure ReModule where
  valid : String → Bool
  searchIC : String → String → Bool

/-- One call `re.search(pattern, s, re.IGNORECASE)`: raises `re.error`
when the pattern does not compile, otherwise reports whether a match
was found. -/
def ReModule.search (R : ReModule) (pattern s : String) :
    Except PyError Bool :=
  if R.valid pattern then .ok (R.searchIC pattern s) else .error .regexError

/-- One element of the cached stop-areas JSON: a `gid` (string or int in
the provider's payload) and a `name`. -/
structure StopJson where
  gid : PyVal
  name : String
deriving DecidableEq

/-- The generator `find_stops(name)`, consumed to a list, over an
already-loaded stop list: for each stop in order, run the
case-insensitive search and, on a match, yield `(int(stop['gid']),
stop['name'])`.  Exceptions raised while iterating (an invalid pattern
at the first `re.search`, or a malformed `gid` at `int`) abort the
whole iteration, which is what `list(find_stops(p))` observes. -/
def find_stops (R : ReModule) (stops : List StopJson) (name : String) :
    Except PyError (List (Int × String)) :=
  match stops with
  | [] => .ok []
  | stop :: rest =>
    match R.search name stop.name with
    | .error e => .error e
    | .ok m =>
      if m then
        match pyInt stop.gid with
        | .error e => .error e
        | .ok g =>
          match find_stops R rest name with
          | .error e => .error e
          | .ok tail => .ok ((g, stop.name) :: tail)
      else find_stops R rest name

/-- Total extraction of `int(gid)` for stops already known to have a
well-formed `gid` (the spec side of the C1 refinement). -/
def pyIntD (v : PyVal) : Int :=
  match pyInt v with
  | .ok n => n
  | .error _ => 0

/-- The spec's description of the stop finder: the stops whose name
contains a case-insensitive match of the pattern, in the list's
original order, each as the pair (integer id converted from gid, name). -/
def findStopsSpec (R : ReModule) (stops : List StopJson) (p : String) :
    List (Int × String) :=
  (stops.filter fun s => R.searchIC p s.name).map fun s => (pyIntD s.gid, s.name)

/-- The on-disk cache file `vasttrafik-stops.json`: its modification
time (seconds) and its contents, already parsed as a stop list. -/
structure CacheFile where
  mtime : Int
  content : List StopJson
deriving DecidableEq

/-- Process/filesystem state seen by the stop cache: the module-level
`__stops` (initially `None`) and the cache file (or its absence). -/
structure CacheState where
  stops : Option (List StopJson)
  file : Option CacheFile
deriving DecidableEq

/-- Truthiness of the module-level `__stops` (`if __stops:`): falsy when
it is still `None` and also when it holds the empty list. -/
def stopsTruthy : Option (List StopJson) → Bool
  | Option.none => false
  | Option.some l => l != []

/-- `timedelta(weeks = 1)` in seconds. -/
def oneWeek : Int := 7 * 24 * 60 * 60

/-- `__refresh_stop_cache()`: return unchanged if `__stops` is truthy;
otherwise fetch when the file is absent or strictly older than one
week (writing the fetched list with modification time `now`), and
finally load the file into `__stops`.  Returns the new state and the
number of fetches performed (0 or 1).  `now` is the current time in
seconds and `fetched` the stop list the stop-areas endpoint would
deliver. -/
def refresh_stop_cache (now : Int) (fetched : List StopJson)
    (st : CacheState) : CacheState × Nat :=
  if stopsTruthy st.stops then (st, 0)
  else
    match st.file with
    | Option.some f =>
      if now - f.mtime > oneWeek then
        ({ stops := Option.some fetched,
           file := Option.some ⟨now, fetched⟩ }, 1)
      else
        ({ stops := Option.some f.content, file := st.file }, 0)
    | Option.none =>
      ({ stops := Option.some fetched,
         file := Option.some ⟨now, fetched⟩ }, 1)

/-- A full `find_stops` call including its `__refresh_stop_cache()`
prelude: returns the state after the call, the number of fetches, and
the matches produced from the now-loaded stop list. -/
def find_stops_run (now : Int) (fetched : List StopJson) (R : ReModule)
    (st : CacheState) (pattern : String) :
    CacheState × Nat × Except PyError (List (Int × String)) :=
  match refresh_stop_cache now fetched st with
  | (st2, k) => (st2, k, find_stops R (st2.stops.getD []) pattern)

/-- One element of a departures response: a JSON object with fields
`name`, `direction`, `rtMinutesLeft1`, `rtMinutesLeft2`. -/
structure DepJson where
  name : PyVal
  direction : PyVal
  rtMinutesLeft1 : PyVal
  rtMinutesLeft2 : PyVal
deriving DecidableEq

/-- The list comprehension in `departures`: build one `departure` per
response element, in response order; a failing constructor aborts the
whole comprehension with its exception. -/
def parse_departures : List DepJson → Except PyError (List Departure)
  | [] => .ok []
  | d :: rest =>
    match departure_init d.name d.direction d.rtMinutesLeft1 d.rtMinutesLeft2 with
    | .error e => .error e
    | .ok dep =>
      match parse_departures rest with
      | .error e => .error e
      | .ok tail => .ok (dep :: tail)

/-- Base URL of the departure-board endpoint. -/
def departures_url : String := "https://www.vasttrafik.se/api/departure-board/"

/-- The exact type guard in `departures`: `type(stop) == int`.  Booleans
fail it (`type(True)` is `bool`, not `int`), as does everything else
that is not an `int`. -/
def pyTypeIsInt : PyVal → Bool
  | .int _ => true
  | _ => false

/-- `departures(stop)`: if `type(stop) == int`, GET the departures URL
with `str(stop)` appended and parse the body, else `raise TypeError`.
The HTTP layer is an oracle from URL to the decoded JSON body; the
first component of the result lists the URLs actually requested, so
that zero-request claims are visible. -/
def departures_run (http : String → List DepJson) (stop : PyVal) :
    List String × Except PyError (List Departure) :=
  match stop with
  | .int n =>
      ([departures_url ++ toString n],
       parse_departures (http (departures_url ++ toString n)))
  | _ => ([], .error .typeError)

/-- Well-formedness of one departures-response element, as §4.3 of the
spec describes the provider's payload: `rtMinutesLeft1` is the sentinel
`"now"` or an integer, and `rtMinutesLeft2` is `null` or an integer. -/
def WellFormedDep (d : DepJson) : Prop :=
  (d.rtMinutesLeft1 = PyVal.str "now" ∨ ∃ n, d.rtMinutesLeft1 = PyVal.int n) ∧
  (d.rtMinutesLeft2 = PyVal.none ∨ ∃ n, d.rtMinutesLeft2 = PyVal.int n)

/-- The spec's construction rule for one `Departure` (§3): `minsLeft`
is 0 for the sentinel `"now"` and the integer value otherwise;
`minsNext` is absent for `null`/zero and the integer value otherwise. -/
def depOfJsonSpec (d : DepJson) : Departure :=
  { line := pyStr d.name
    direction := pyStr d.direction
    minsLeft := if d.rtMinutesLeft1 = PyVal.str "now" then 0
                else pyIntD d.rtMinutesLeft1
    minsNext :=
      match d.rtMinutesLeft2 with
      | PyVal.int n => if n = 0 then Option.none else Option.some n
      | _ => Option.none }

/-- Lines of the defaults file `~/.vasttrafik` after `ln.rstrip()`:
trailing whitespace stripped from each line; no file yields no
patterns. -/
def pyRstrip (s : String) : String :=
  String.mk ((s.toList.reverse.dropWhile Char.isWhitespace).reverse)

/-- `read_defaults()`, consumed to a list: the defaults file's lines,
each right-stripped, or nothing when the file does not exist. -/
def read_defaults : Option (List String) → List String
  | Option.none => []
  | Option.some lns => lns.map pyRstrip

/-- What the CLI driver prints (beyond the departure lines themselves):
the usage message, the no-matches message, or the per-stop listings
(stop name paired with that stop's departures, in order). -/
inductive CliOutput where
  | usage
  | noMatches
  | listings (xs : List (String × List Departure))
deriving DecidableEq

/-- Outcome of one CLI run: exit status, what was printed, and how many
departure-board calls were made. -/
structure CliResult where
  exitCode : Nat
  output : CliOutput
  departureCalls : Nat
deriving DecidableEq

/-- The pattern list the driver ends up with: `argv[1:]` when arguments
were given, otherwise the defaults-file patterns. -/
def cliRegexes (args : List String) (defaults : Option (List String)) :
    List String :=
  if args = [] then read_defaults defaults else args

/-- The driver's stop collection, `[stop for stops in map(find_stops,
regexes) for stop in stops if stop]`: each pattern's matches in pattern
order, concatenated.  The `if stop` filter never drops anything (a
2-tuple is always truthy), so it is not re-modelled.  Regex errors
propagate out of the comprehension. -/
def cliStops (R : ReModule) (stopList : List StopJson) :
    List String → Except PyError (List (Int × String))
  | [] => .ok []
  | p :: rest =>
    match find_stops R stopList p with
    | .error e => .error e
    | .ok xs =>
      match cliStops R stopList rest with
      | .error e => .error e
      | .ok ys => .ok (xs ++ ys)

/-- The per-stop departure loop at the end of `__main__`: one
`departures` call per matched stop, printing the stop name and its
formatted departures. -/
def cliListings (depsOf : Int → Except PyError (List Departure)) :
    List (Int × String) → Except PyError (List (String × List Departure))
  | [] => .ok []
  | s :: rest =>
    match depsOf s.1 with
    | .error e => .error e
    | .ok ds =>
      match cliListings depsOf rest with
      | .error e => .error e
      | .ok tail => .ok ((s.2, ds) :: tail)

/-- The `__main__` driver over an already-loaded stop list.  `args` is
`argv[1:]`, `defaults` the defaults file's raw lines (or `none` when
the file is absent), `R` the regex oracle and `depsOf` the composed
fetch-and-parse of one departure board.  Mirrors the source's control
flow: usage and `exit(0)` when no arguments were given and the defaults
yield no patterns; `"No matching stops found."` and `exit(1)` when the
collected stop list is empty; otherwise the listings and exit 0. -/
def cliMain (args : List String) (defaults : Option (List String))
    (R : ReModule) (stopList : List StopJson)
    (depsOf : Int → Except PyError (List Departure)) :
    Except PyError CliResult :=
  if args = [] ∧ read_defaults defaults = [] then
    .ok ⟨0, CliOutput.usage, 0⟩
  else
    match cliStops R stopList (cliRegexes args defaults) with
    | .error e => .error e
    | .ok stops =>
      if stops = [] then .ok ⟨1, CliOutput.noMatches, 0⟩
      else
        match cliListings depsOf stops with
        | .error e => .error e
        | .ok outs => .ok ⟨0, CliOutput.listings outs, stops.length⟩

/-! ## Claims about departure formatting (C5, C10) -/

/-- C5 (amended): a formatted departure is the line designator
right-aligned to width 3, then " → ", the direction, " in ", the
minutes left and "m"; the " (then Nm)" suffix is appended exactly when
a second, nonzero value is present (the truthiness test drops a stored
zero); the spec's concrete example formats as stated. -/
theorem c5_format (d : Departure) :
    ((d.minsNext = Option.none ∨ d.minsNext = Option.some 0) →
      departure_str d =
        pyRjust d.line 3 ++ " → " ++ d.direction ++ " in " ++
          toString d.minsLeft ++ "m") ∧
    (∀ n : Int, d.minsNext = Option.some n → n ≠ 0 →
      departure_str d =
        pyRjust d.line 3 ++ " → " ++ d.direction ++ " in " ++
          toString d.minsLeft ++ "m" ++ " (then " ++ toString n ++ "m)") ∧
    departure_str ⟨"4", "Angered", 3, Option.some 13⟩ =
      "  4 → Angered in 3m (then 13m)" := by
  refine ⟨?_, ?_, by decide⟩
  · rintro (h | h) <;> simp [departure_str, h]
  · intro n hn hne
    simp [departure_str, hn, hne]

/-- Witness for C5: the amended theorem applied at a nonzero and at a
zero second value. -/
theorem c5_format_witness :
    departure_str ⟨"7", "Heden", 5, Option.some 2⟩ =
      pyRjust "7" 3 ++ " → " ++ "Heden" ++ " in " ++
        toString (5 : Int) ++ "m" ++ " (then " ++ toString (2 : Int) ++ "m)" ∧
    departure_str ⟨"7", "Heden", 5, Option.some 0⟩ =
      pyRjust "7" 3 ++ " → " ++ "Heden" ++ " in " ++ toString (5 : Int) ++ "m" :=
  ⟨(c5_format ⟨"7", "Heden", 5, Option.some 2⟩).2.1 2 rfl (by decide),
   (c5_format ⟨"7", "Heden", 5, Option.some 0⟩).1 (Or.inr rfl)⟩

/-- Counterexample to C5 as stated: this departure has a second value
present (`minsNext = some 0`), yet its formatting carries no "then"
suffix at all — the suffix does not appear "exactly when a second value
is present". -/
theorem c5_counterexample :
    (Departure.mk "4" "Angered" 3 (Option.some 0)).minsNext ≠ Option.none ∧
    departure_str (Departure.mk "4" "Angered" 3 (Option.some 0)) =
      "  4 → Angered in 3m" ∧
    strContainsSub
      (departure_str (Departure.mk "4" "Angered" 3 (Option.some 0)))
      "then" = false := by decide

/-- C10 (amended): a departure whose stored `minsNext` is 0 — reachable
by constructing with the truthy zero-valued argument "0" — formats
without the " (then Nm)" suffix, so the suffix is never emitted with
value 0 (the direction text itself can still contain "then 0m"). -/
theorem c10_zero_minsNext (d : Departure) (h : d.minsNext = Option.some 0) :
    departure_str d =
      pyRjust d.line 3 ++ " → " ++ d.direction ++ " in " ++
        toString d.minsLeft ++ "m" ∧
    departure_init (PyVal.str "4") (PyVal.str "Angered") (PyVal.int 3)
      (PyVal.str "0") = .ok ⟨"4", "Angered", 3, Option.some 0⟩ := by
  refine ⟨by simp [departure_str, h], rfl⟩

/-- Witness for C10: the amended theorem applied at the departure
obtained from the constructor call with second value "0". -/
theorem c10_zero_minsNext_witness :
    departure_str ⟨"4", "Angered", 3, Option.some 0⟩ =
      pyRjust "4" 3 ++ " → " ++ "Angered" ++ " in " ++
        toString (3 : Int) ++ "m" :=
  (c10_zero_minsNext ⟨"4", "Angered", 3, Option.some 0⟩ rfl).1

/-- Counterexample to C10's consequent as stated: a constructible
departure whose direction text is "then 0m" formats to a line that does
contain "then 0m", so "no formatted departure line ever contains
'then 0m'" fails (only the emitted suffix never reads so). -/
theorem c10_counterexample :
    strContainsSub
      (departure_str (Departure.mk "4" "then 0m" 3 Option.none))
      "then 0m" = true ∧
    departure_init (PyVal.str "4") (PyVal.str "then 0m") (PyVal.int 3)
      PyVal.none = .ok (Departure.mk "4" "then 0m" 3 Option.none) :=
  ⟨by decide, rfl⟩

/-! ## Claims about the stop cache (C2, C3) -/

/-- C2: with nothing loaded in memory and the cache file present, the
refresh step fetches exactly once when the file is more than 7 days
old (overwriting it and loading the fetched list), and zero times when
it is less than 7 days old (loading the existing contents). -/
theorem c2_cache_refresh (now : Int) (fetched : List StopJson)
    (st : CacheState) (f : CacheFile)
    (h0 : st.stops = Option.none) (hf : st.file = Option.some f) :
    (now - f.mtime > oneWeek →
      refresh_stop_cache now fetched st =
        ({ stops := Option.some fetched,
           file := Option.some ⟨now, fetched⟩ }, 1)) ∧
    (now - f.mtime < oneWeek →
      refresh_stop_cache now fetched st =
        ({ stops := Option.some f.content, file := Option.some f }, 0)) := by
  constructor
  · intro h
    simp [refresh_stop_cache, h0, hf, stopsTruthy, h]
  · intro h
    have hng : ¬ (now - f.mtime > oneWeek) := by omega
    simp [refresh_stop_cache, h0, hf, stopsTruthy, hng]

/-- Witness for C2: an 8-day-old file triggers one fetch, a fresh file
none. -/
theorem c2_cache_refresh_witness :
    refresh_stop_cache (oneWeek + 1) [⟨PyVal.int 2, "Heden"⟩]
      ⟨Option.none, Option.some ⟨0, [⟨PyVal.int 1, "Angered"⟩]⟩⟩ =
      ({ stops := Option.some [⟨PyVal.int 2, "Heden"⟩],
         file := Option.some ⟨oneWeek + 1, [⟨PyVal.int 2, "Heden"⟩]⟩ }, 1) ∧
    refresh_stop_cache 10 [⟨PyVal.int 2, "Heden"⟩]
      ⟨Option.none, Option.some ⟨0, [⟨PyVal.int 1, "Angered"⟩]⟩⟩ =
      ({ stops := Option.some [⟨PyVal.int 1, "Angered"⟩],
         file := Option.some ⟨0, [⟨PyVal.int 1, "Angered"⟩]⟩ }, 0) :=
  ⟨(c2_cache_refresh (oneWeek + 1) [⟨PyVal.int 2, "Heden"⟩] _ _ rfl rfl).1
      (by decide),
   (c2_cache_refresh 10 [⟨PyVal.int 2, "Heden"⟩] _ _ rfl rfl).2 (by decide)⟩

/-- C3 (amended): once the stop list is loaded with at least one stop,
the refresh step is a no-op — no fetch, no staleness check, state
unchanged — and repeated `find_stops` calls leave the state fixed and
return the same results for the same pattern. -/
theorem c3_loaded_no_refresh (now : Int) (fetched : List StopJson)
    (R : ReModule) (st : CacheState) (pattern : String)
    (l : List StopJson) (h : st.stops = Option.some l) (hne : l ≠ []) :
    refresh_stop_cache now fetched st = (st, 0) ∧
    find_stops_run now fetched R st pattern =
      (st, 0, find_stops R l pattern) ∧
    find_stops_run now fetched R
        ((find_stops_run now fetched R st pattern).1) pattern =
      find_stops_run now fetched R st pattern := by
  have ht : stopsTruthy st.stops = true := by
    rw [h]; simp [stopsTruthy, hne]
  have h1 : refresh_stop_cache now fetched st = (st, 0) := by
    simp [refresh_stop_cache, ht]
  have h2 : find_stops_run now fetched R st pattern =
      (st, 0, find_stops R l pattern) := by
    simp [find_stops_run, h1, h]
  exact ⟨h1, h2, by rw [h2]; exact h2⟩

/-- Witness for C3: with one stop loaded and a stale file on disk, a
`find_stops` call fetches nothing and leaves the state alone. -/
theorem c3_loaded_no_refresh_witness :
    refresh_stop_cache (oneWeek + 1) [⟨PyVal.int 2, "Heden"⟩]
      ⟨Option.some [⟨PyVal.int 1, "Angered"⟩], Option.some ⟨0, []⟩⟩ =
      (⟨Option.some [⟨PyVal.int 1, "Angered"⟩], Option.some ⟨0, []⟩⟩, 0) ∧
    find_stops_run (oneWeek + 1) [⟨PyVal.int 2, "Heden"⟩]
      ⟨fun _ => true, fun _ _ => true⟩
      ⟨Option.some [⟨PyVal.int 1, "Angered"⟩], Option.some ⟨0, []⟩⟩ "a" =
      (⟨Option.some [⟨PyVal.int 1, "Angered"⟩], Option.some ⟨0, []⟩⟩, 0,
       find_stops ⟨fun _ => true, fun _ _ => true⟩
         [⟨PyVal.int 1, "Angered"⟩] "a") :=
  ⟨(c3_loaded_no_refresh (oneWeek + 1) [⟨PyVal.int 2, "Heden"⟩]
      ⟨fun _ => true, fun _ _ => true⟩ _ "a" _ rfl (by decide)).1,
   (c3_loaded_no_refresh (oneWeek + 1) [⟨PyVal.int 2, "Heden"⟩]
      ⟨fun _ => true, fun _ _ => true⟩ _ "a" _ rfl (by decide)).2.1⟩

/-- Counterexample to C3 as stated: a state whose stop list is already
loaded — as the empty list — is refetched anyway, because the guard
`if __stops:` tests truthiness, not presence: one fetch happens and the
state changes. -/
theorem c3_counterexample :
    refresh_stop_cache (oneWeek + 1) [⟨PyVal.int 2, "Heden"⟩]
      ⟨Option.some [], Option.some ⟨0, []⟩⟩ =
      (⟨Option.some [⟨PyVal.int 2, "Heden"⟩],
        Option.some ⟨oneWeek + 1, [⟨PyVal.int 2, "Heden"⟩]⟩⟩, 1) := by decide

/-! ## Claims about the departure fetcher (C6, C9, C4) -/

/-- C6: an input whose type is not `int` makes `departures` raise
`TypeError` with zero HTTP requests; an `int` input passes the guard
and one fetch of the departures URL is attempted. -/
theorem c6_type_guard (http : String → List DepJson) (stop : PyVal) :
    (pyTypeIsInt stop = false →
      departures_run http stop = ([], .error .typeError)) ∧
    (∀ n : Int, stop = PyVal.int n →
      (departures_run http stop).1 = [departures_url ++ toString n]) := by
  constructor
  · intro h
    cases stop <;> simp_all [departures_run, pyTypeIsInt]
  · intro n hn
    subst hn
    rfl

/-- Witness for C6: a string id is rejected without a request, an int id
produces exactly one request. -/
theorem c6_type_guard_witness :
    departures_run (fun _ => []) (PyVal.str "Angered") =
      ([], .error .typeError) ∧
    (departures_run (fun _ => []) (PyVal.int 9021)).1 =
      [departures_url ++ toString (9021 : Int)] :=
  ⟨(c6_type_guard (fun _ => []) (PyVal.str "Angered")).1 rfl,
   (c6_type_guard (fun _ => []) (PyVal.int 9021)).2 9021 rfl⟩

/-- C9: the guard is `type(stop) == int`, so every int — negative ones
included — passes and is appended to the departures URL, while `True`
and `False` (of type `bool`, an int subclass) and every other non-int
value raise `TypeError`. -/
theorem c9_exact_int_guard (http : String → List DepJson) (stop : PyVal) :
    (∀ n : Int, stop = PyVal.int n →
      departures_run http stop =
        ([departures_url ++ toString n],
         parse_departures (http (departures_url ++ toString n)))) ∧
    departures_run http (PyVal.bool true) = ([], .error .typeError) ∧
    departures_run http (PyVal.bool false) = ([], .error .typeError) ∧
    (pyTypeIsInt stop = false →
      departures_run http stop = ([], .error .typeError)) := by
  refine ⟨fun n hn => by subst hn; rfl, rfl, rfl, fun h => ?_⟩
  cases stop <;> simp_all [departures_run, pyTypeIsInt]

/-- Witness for C9: a negative id passes the guard and lands in the URL;
`True` and `None` are rejected with no request. -/
theorem c9_exact_int_guard_witness :
    departures_run (fun _ => []) (PyVal.int (-5)) =
      ([departures_url ++ "-5"], .ok []) ∧
    departures_run (fun _ => []) (PyVal.bool true) =
      ([], .error .typeError) ∧
    departures_run (fun _ => []) PyVal.none = ([], .error .typeError) :=
  ⟨(c9_exact_int_guard (fun _ => []) (PyVal.int (-5))).1 (-5) rfl,
   (c9_exact_int_guard (fun _ => []) (PyVal.bool true)).2.1,
   (c9_exact_int_guard (fun _ => []) PyVal.none).2.2.2 rfl⟩

/-- C4: on a well-formed departures response, `departures` builds one
record per element in element order, with `minsLeft` 0 for the sentinel
"now" and the integer value otherwise, and `minsNext` absent for
null/zero and the integer value otherwise. -/
theorem c4_parse_departures (deps : List DepJson)
    (h : ∀ d ∈ deps, WellFormedDep d) :
    parse_departures deps = .ok (deps.map depOfJsonSpec) := by
  induction deps with
  | nil => rfl
  | cons d rest ih =>
    obtain ⟨h1, h2⟩ := h d (List.mem_cons_self d rest)
    have ihr := ih fun x hx => h x (List.mem_cons_of_mem _ hx)
    have hinit : departure_init d.name d.direction d.rtMinutesLeft1
        d.rtMinutesLeft2 = .ok (depOfJsonSpec d) := by
      rcases h1 with h1 | ⟨n, h1⟩ <;> rcases h2 with h2 | ⟨m, h2⟩
      · simp [departure_init, h1, h2, depOfJsonSpec, pyTruthy]
      · rcases eq_or_ne m 0 with hm | hm <;>
          simp [departure_init, h1, h2, hm, depOfJsonSpec, pyTruthy, pyInt,
            Except.map]
      · simp [departure_init, h1, h2, depOfJsonSpec, pyTruthy, pyInt, pyIntD]
      · rcases eq_or_ne m 0 with hm | hm <;>
          simp [departure_init, h1, h2, hm, depOfJsonSpec, pyTruthy, pyInt,
            pyIntD, Except.map]
    simp [parse_departures, hinit, ihr]

/-- Witness for C4: a three-element response exercising the sentinel,
the null/zero cases and a real second value. -/
theorem c4_parse_departures_witness :
    parse_departures
      [⟨PyVal.str "4", PyVal.str "Angered", PyVal.str "now", PyVal.none⟩,
       ⟨PyVal.str "16", PyVal.str "Heden", PyVal.int 3, PyVal.int 0⟩,
       ⟨PyVal.str "52", PyVal.str "Skogome", PyVal.int 5, PyVal.int 12⟩] =
      .ok [⟨"4", "Angered", 0, Option.none⟩,
           ⟨"16", "Heden", 3, Option.none⟩,
           ⟨"52", "Skogome", 5, Option.some 12⟩] :=
  c4_parse_departures _ (by
    intro d hd
    simp [List.mem_cons] at hd
    rcases hd with h | h | h <;> subst h
    · exact ⟨Or.inl rfl, Or.inl rfl⟩
    · exact ⟨Or.inr ⟨3, rfl⟩, Or.inr ⟨0, rfl⟩⟩
    · exact ⟨Or.inr ⟨5, rfl⟩, Or.inr ⟨12, rfl⟩⟩)

/-! ## Claims about the stop finder (C1, C7) -/

/-- The stop finder agrees with its spec-side description whenever the
pattern compiles and the stops' gids convert. -/
lemma find_stops_spec_aux (R : ReModule) (p : String)
    (hval : R.valid p = true) :
    ∀ L : List StopJson, (∀ s ∈ L, ∃ n, pyInt s.gid = Except.ok n) →
      find_stops R L p = Except.ok (findStopsSpec R L p) := by
  intro L
  induction L with
  | nil => intro _; rfl
  | cons s t ih =>
    intro hgid
    obtain ⟨n, hn⟩ := hgid s (List.mem_cons_self s t)
    have iht := ih fun x hx => hgid x (List.mem_cons_of_mem _ hx)
    by_cases hm : R.searchIC p s.name
    · simp [find_stops, ReModule.search, hval, hm, iht, findStopsSpec, hn,
        pyIntD]
    · simp [find_stops, ReModule.search, hval, hm, iht, findStopsSpec]

/-- C1: with a valid pattern and a loaded stop list whose gids convert
to integers, `find_stops` yields exactly the stops whose name matches
the case-insensitive search, in original order, as (int(gid), name)
pairs — and the empty list, not an error, when nothing matches. -/
theorem c1_find_stops (R : ReModule) (L : List StopJson) (p : String)
    (hval : R.valid p = true)
    (hgid : ∀ s ∈ L, ∃ n, pyInt s.gid = Except.ok n) :
    find_stops R L p = .ok (findStopsSpec R L p) ∧
    ((∀ s ∈ L, R.searchIC p s.name = false) →
      find_stops R L p = .ok []) := by
  have main := find_stops_spec_aux R p hval L hgid
  refine ⟨main, fun hnone => ?_⟩
  rw [main]
  have hzero : findStopsSpec R L p = [] := by
    unfold findStopsSpec
    rw [List.filter_eq_nil_iff.mpr fun a ha => by simp [hnone a ha]]
    rfl
  rw [hzero]

/-- Witness for C1: a concrete oracle (match iff the pattern is a
character of the name, ignoring case) over a two-stop list. -/
theorem c1_find_stops_witness :
    find_stops
      ⟨fun _ => true,
       fun pt s => charsContain (s.toList.map Char.toLower)
         (pt.toList.map Char.toLower)⟩
      [⟨PyVal.str "9021001", "Angered"⟩, ⟨PyVal.int 9021002, "Heden"⟩]
      "GER" =
      .ok [(9021001, "Angered")] ∧
    find_stops
      ⟨fun _ => true,
       fun pt s => charsContain (s.toList.map Char.toLower)
         (pt.toList.map Char.toLower)⟩
      [⟨PyVal.str "9021001", "Angered"⟩, ⟨PyVal.int 9021002, "Heden"⟩]
      "zzz" =
      .ok [] := by
  constructor
  · have h := c1_find_stops
      ⟨fun _ => true,
       fun pt s => charsContain (s.toList.map Char.toLower)
         (pt.toList.map Char.toLower)⟩
      [⟨PyVal.str "9021001", "Angered"⟩, ⟨PyVal.int 9021002, "Heden"⟩]
      "GER" rfl (by
        intro s hs
        simp [List.mem_cons] at hs
        rcases hs with h | h <;> subst h
        · exact ⟨9021001, rfl⟩
        · exact ⟨9021002, rfl⟩)
    rw [h.1]
    rfl
  · have h := c1_find_stops
      ⟨fun _ => true,
       fun pt s => charsContain (s.toList.map Char.toLower)
         (pt.toList.map Char.toLower)⟩
      [⟨PyVal.str "9021001", "Angered"⟩, ⟨PyVal.int 9021002, "Heden"⟩]
      "zzz" rfl (by
        intro s hs
        simp [List.mem_cons] at hs
        rcases hs with h | h <;> subst h
        · exact ⟨9021001, rfl⟩
        · exact ⟨9021002, rfl⟩)
    exact h.2 (by decide)

/-- C7 (amended): an invalid pattern makes `find_stops` raise the regex
error, provided the loaded stop list is nonempty — the generator calls
`re.search` once per stop, so the first stop already triggers it. -/
theorem c7_invalid_pattern (R : ReModule) (L : List StopJson) (p : String)
    (hinv : R.valid p = false) (hne : L ≠ []) :
    find_stops R L p = .error .regexError := by
  cases L with
  | nil => exact absurd rfl hne
  | cons s t => simp [find_stops, ReModule.search, hinv]

/-- Witness for C7: an oracle that rejects every pattern errors out on a
one-stop list. -/
theorem c7_invalid_pattern_witness :
    find_stops ⟨fun _ => false, fun _ _ => false⟩
      [⟨PyVal.int 1, "Angered"⟩] "(" = .error .regexError :=
  c7_invalid_pattern ⟨fun _ => false, fun _ _ => false⟩
    [⟨PyVal.int 1, "Angered"⟩] "(" rfl (by decide)

/-- Counterexample to C7 as stated: with an empty loaded stop list the
generator never reaches `re.search`, so even an invalid pattern (the
oracle rejects every pattern, "(" included) returns the empty sequence
instead of failing. -/
theorem c7_counterexample :
    find_stops ⟨fun _ => false, fun _ _ => false⟩ [] "(" =
      Except.ok [] := rfl

/-! ## Claims about the CLI driver (C8) -/

/-- C8 (amended): the driver prints usage and exits 0 when no arguments
were given and the defaults file yields no patterns (absent — or
existing but empty, which the original claim folded into "no defaults
file"); prints "No matching stops found." and exits 1, with zero
departure calls, when the patterns produced an empty stop list; and
prints the per-stop listings and exits 0 when stops matched and their
departure fetches succeed. -/
theorem c8_cli (args : List String) (defaults : Option (List String))
    (R : ReModule) (L : List StopJson)
    (depsOf : Int → Except PyError (List Departure)) :
    (args = [] → read_defaults defaults = [] →
      cliMain args defaults R L depsOf = .ok ⟨0, CliOutput.usage, 0⟩) ∧
    (cliRegexes args defaults ≠ [] →
      cliStops R L (cliRegexes args defaults) = .ok [] →
      cliMain args defaults R L depsOf = .ok ⟨1, CliOutput.noMatches, 0⟩) ∧
    (∀ S outs, cliStops R L (cliRegexes args defaults) = .ok S → S ≠ [] →
      cliListings depsOf S = .ok outs →
      cliMain args defaults R L depsOf =
        .ok ⟨0, CliOutput.listings outs, S.length⟩) := by
  refine ⟨fun h1 h2 => by simp [cliMain, h1, h2], ?_, ?_⟩
  · intro hne hstops
    have hguard : ¬ (args = [] ∧ read_defaults defaults = []) := by
      rintro ⟨ha, hd⟩
      exact hne (by simp [cliRegexes, ha, hd])
    simp [cliMain, hguard, hstops]
  · intro S outs hS hSne hout
    have hguard : ¬ (args = [] ∧ read_defaults defaults = []) := by
      rintro ⟨ha, hd⟩
      have hre : cliRegexes args defaults = [] := by simp [cliRegexes, ha, hd]
      rw [hre] at hS
      simp [cliStops] at hS
      exact hSne hS
    simp [cliMain, hguard, hS, hSne, hout]

/-- Witness for C8: the three branches at concrete inputs — no patterns
at all, a pattern matching nothing, and a pattern matching one stop. -/
theorem c8_cli_witness :
    cliMain [] Option.none ⟨fun _ => true, fun _ _ => true⟩ []
        (fun _ => .ok []) = .ok ⟨0, CliOutput.usage, 0⟩ ∧
    cliMain ["zzz"] Option.none ⟨fun _ => true, fun _ _ => false⟩
        [⟨PyVal.int 1, "Angered"⟩] (fun _ => .ok []) =
      .ok ⟨1, CliOutput.noMatches, 0⟩ ∧
    cliMain ["a"] Option.none ⟨fun _ => true, fun _ _ => true⟩
        [⟨PyVal.int 1, "Angered"⟩] (fun _ => .ok []) =
      .ok ⟨0, CliOutput.listings [("Angered", [])], 1⟩ :=
  ⟨(c8_cli [] Option.none ⟨fun _ => true, fun _ _ => true⟩ []
      (fun _ => .ok [])).1 rfl rfl,
   (c8_cli ["zzz"] Option.none ⟨fun _ => true, fun _ _ => false⟩
      [⟨PyVal.int 1, "Angered"⟩] (fun _ => .ok [])).2.1 (by decide) rfl,
   (c8_cli ["a"] Option.none ⟨fun _ => true, fun _ _ => true⟩
      [⟨PyVal.int 1, "Angered"⟩] (fun _ => .ok [])).2.2
     [(1, "Angered")] [("Angered", [])] rfl (by decide) rfl⟩

/-- Counterexample to C8 as stated: with no command-line patterns and a
defaults file that exists but is empty, the claim's first case does not
apply (a defaults file is present) and its second does not either (no
pattern was given or loaded), so the claim's "otherwise" promises
per-stop listings with exit 0 — but the driver prints the usage message
instead. -/
theorem c8_counterexample :
    cliMain [] (Option.some []) ⟨fun _ => true, fun _ _ => true⟩
      [⟨PyVal.int 1, "Angered"⟩] (fun _ => .ok []) =
      .ok ⟨0, CliOutput.usage, 0⟩ := rfl

end Vasttrafik
